import Mathlib

/-!
Shallow embedding of the freqtrade strategy `ZUUK1m1p`
(src/user_data/strategies/ZUUK1m1p.py).

A pandas dataframe of OHLCV candles is modelled as a `List Candle` with
rational prices; a column produced by `populate_indicators` is modelled as a
function from the candle list and a row index to `Option ℚ`, where `none`
plays the role of pandas `NaN` (undefined / not-yet-warmed-up values, which
pandas propagates silently through arithmetic and which compare as false).
The external indicator library calls (`ta.ATR`, `ta.EMA`) are modelled from
their documented standard definitions; every piece of arithmetic and
branching of the strategy file itself is translated line by line.
-/

/-- One OHLCV candle as supplied by the host. The python column `open` is a
Lean keyword, so the field is called `open_`. -/
structure Candle where
  date : ℚ
  open_ : ℚ
  high : ℚ
  low : ℚ
  close : ℚ
  volume : ℚ
deriving DecidableEq, Repr, Inhabited

/-- `dataframe['close']` at row `i` (out-of-range reads give the default
candle; the embedding only uses in-range indices). -/
def closeAt (dataframe : List Candle) (i : ℕ) : ℚ :=
  (dataframe.getD i default).close

/-- `dataframe['high']` at row `i`. -/
def highAt (dataframe : List Candle) (i : ℕ) : ℚ :=
  (dataframe.getD i default).high

/-- `dataframe['low']` at row `i`. -/
def lowAt (dataframe : List Candle) (i : ℕ) : ℚ :=
  (dataframe.getD i default).low

/-- `dataframe['close'].pct_change()`: fractional change of close from the
previous row, `NaN` (here `none`) at row 0. -/
def price_change (dataframe : List Candle) (i : ℕ) : Option ℚ :=
  if i = 0 then none
  else some ((closeAt dataframe i - closeAt dataframe (i - 1)) /
             closeAt dataframe (i - 1))

/-- True range at row `i` (meaningful for `1 ≤ i`): the largest of
`high - low`, `|high - prev_close|`, `|low - prev_close|`. -/
def trueRange (dataframe : List Candle) (i : ℕ) : ℚ :=
  max (highAt dataframe i - lowAt dataframe i)
    (max |highAt dataframe i - closeAt dataframe (i - 1)|
      |lowAt dataframe i - closeAt dataframe (i - 1)|)

/-- Modelled from the spec: `ta.ATR(dataframe, timeperiod=14)` is an external
TA-Lib call; the spec defines ATR as the moving average of the true range
over a 14-period window, undefined during warm-up. True range needs a
previous close, so the first defined value sits at row 14. -/
def atrVal (dataframe : List Candle) (i : ℕ) : ℚ :=
  (((List.range 14).map (fun k => trueRange dataframe (i - k))).sum) / 14

/-- The `atr` column: `none` before the 14-period warm-up. -/
def atr (dataframe : List Candle) (i : ℕ) : Option ℚ :=
  if 14 ≤ i then some (atrVal dataframe i) else none

/-- `dataframe['atr'].rolling(window=100).mean()` as a plain rational,
meaningful once 100 defined ATR values exist (row 113 onwards). -/
def long_atrVal (dataframe : List Candle) (i : ℕ) : ℚ :=
  (((List.range 100).map (fun k => atrVal dataframe (i - k))).sum) / 100

/-- The `long_atr` column: a 100-row rolling mean of `atr`; `NaN` (`none`)
while any window entry is still undefined, i.e. before row 113. -/
def long_atr (dataframe : List Candle) (i : ℕ) : Option ℚ :=
  if 113 ≤ i then some (long_atrVal dataframe i) else none

/-- `dataframe['atr'] / dataframe['long_atr']`: undefined when either operand
is undefined, and also when `long_atr` is zero — pandas produces a nonfinite
value (inf or NaN) there and raises no error; both nonfinite outcomes are
modelled as `none`. -/
def atr_ratio (dataframe : List Candle) (i : ℕ) : Option ℚ :=
  match atr dataframe i, long_atr dataframe i with
  | some a, some l => if l = 0 then none else some (a / l)
  | _, _ => none

/-- Modelled from the spec: `ta.EMA(dataframe, timeperiod=n)` is an external
TA-Lib call; the spec defines it as the exponential moving average of close
with span `n`, i.e. the recursion `ema i = ema (i-1) * (1 - k) + close i * k`
with `k = 2 / (n + 1)`, seeded at row 0. -/
def emaVal (span : ℕ) (dataframe : List Candle) : ℕ → ℚ
  | 0 => closeAt dataframe 0
  | i + 1 =>
      emaVal span dataframe i * (1 - 2 / (span + 1)) +
        closeAt dataframe (i + 1) * (2 / (span + 1))

/-- The `ema_short` column (span 50); undefined during the warm-up rows. -/
def ema_short (dataframe : List Candle) (i : ℕ) : Option ℚ :=
  if 49 ≤ i then some (emaVal 50 dataframe i) else none

/-- The `ema_long` column (span 200); undefined during the warm-up rows. -/
def ema_long (dataframe : List Candle) (i : ℕ) : Option ℚ :=
  if 199 ≤ i then some (emaVal 200 dataframe i) else none

/-- `dataframe['ema_short'] > dataframe['ema_long']`: a boolean column; a
comparison against `NaN` is false in pandas, so an undefined operand gives
`false`. -/
def uptrendCol (dataframe : List Candle) (i : ℕ) : Bool :=
  match ema_short dataframe i, ema_long dataframe i with
  | some s, some l => decide (l < s)
  | _, _ => false

/-- `dataframe['low'].rolling(window=5).min()`: minimum of the last five lows,
undefined before row 4. -/
def swing_low (dataframe : List Candle) (i : ℕ) : Option ℚ :=
  if 4 ≤ i then
    some (((List.range 5).map (fun k => lowAt dataframe (i - k))).foldr min
      (lowAt dataframe i))
  else none

/-- A row of the annotated dataframe: the original candle plus every derived
column added by `populate_indicators`. -/
structure AnnRow where
  candle : Candle
  price_change : Option ℚ
  atr : Option ℚ
  long_atr : Option ℚ
  atr_ratio : Option ℚ
  ema_short : Option ℚ
  ema_long : Option ℚ
  uptrend : Bool
  swing_low : Option ℚ
deriving DecidableEq, Repr, Inhabited

/-- `ZUUK1m1p.populate_indicators`: append the derived columns to the
dataframe, row by row, leaving the original candle data untouched. -/
def populate_indicators (dataframe : List Candle) : List AnnRow :=
  (List.range dataframe.length).map (fun i =>
    { candle := dataframe.getD i default
      price_change := price_change dataframe i
      atr := atr dataframe i
      long_atr := long_atr dataframe i
      atr_ratio := atr_ratio dataframe i
      ema_short := ema_short dataframe i
      ema_long := ema_long dataframe i
      uptrend := uptrendCol dataframe i
      swing_low := swing_low dataframe i })

/-- `ZUUK1m1p.populate_buy_trend`: the `buy` column is set to 1 exactly where
`price_change >= 0.01`; elsewhere it stays unset (`none`, pandas `NaN`), and
a comparison against `NaN` is false. -/
def populate_buy_trend (dataframe : List AnnRow) : List (AnnRow × Option ℕ) :=
  dataframe.map (fun row =>
    (row, match row.price_change with
          | some p => if (0.01 : ℚ) ≤ p then some 1 else none
          | none => none))

/-- `ZUUK1m1p.populate_sell_trend`: the `sell` column is set to 0 wherever
`close > 0`; elsewhere it stays unset (`none`). -/
def populate_sell_trend (dataframe : List AnnRow) : List (AnnRow × Option ℕ) :=
  dataframe.map (fun row =>
    (row, if 0 < row.candle.close then some (0 : ℕ) else none))

/-- How the host reads a signal column: the signal fires on a set, nonzero
value; an unset (`NaN`) or zero entry is no signal. -/
def signalActive : Option ℕ → Bool
  | some v => v != 0
  | none => false

/-- `ZUUK1m1p.startup_candle_count`. -/
def startup_candle_count : ℕ := 200

/-- `ZUUK1m1p.stoploss`, the static floor. -/
def stoploss : ℚ := -0.15

/-- The slice of the host's `Trade` object that `custom_stoploss` reads.
`open_date_utc` is an epoch timestamp in seconds, like `current_time`. -/
structure Trade where
  open_rate : ℚ
  open_date_utc : ℚ
deriving DecidableEq, Repr, Inhabited

/-- Float multiplication with `NaN` propagation: an undefined operand makes
the product undefined. -/
def vmul : Option ℚ → Option ℚ → Option ℚ
  | some a, some b => some (a * b)
  | _, _ => none

/-- Float subtraction with `NaN` propagation. -/
def vsub : Option ℚ → Option ℚ → Option ℚ
  | some a, some b => some (a - b)
  | _, _ => none

/-- Float division by a plain number: undefined when the numerator is
undefined or the divisor is zero (pandas/python produce a nonfinite value
there, modelled as `none`). -/
def vdiv (a : Option ℚ) (b : ℚ) : Option ℚ :=
  match a with
  | some x => if b = 0 then none else some (x / b)
  | none => none

/-- The `<` comparison of python floats: any comparison with `NaN` is
false. -/
def vlt : Option ℚ → Option ℚ → Bool
  | some a, some b => decide (a < b)
  | _, _ => false

/-- Python's two-argument `max` on floats: `b` if `b > a`, else `a`. -/
def pymax (a b : Option ℚ) : Option ℚ :=
  if vlt a b then b else a

/-- Lines 97–111 of `custom_stoploss`: the sequential construction of
`atr_multiplier` — trend base, then the profit tiers, then the duration
tightening, each step a reassignment of the same variable. -/
def atrMultiplier (uptrend : Bool) (atr_ratio : Option ℚ)
    (current_profit trade_duration : ℚ) : Option ℚ :=
  let m0 := if uptrend then vmul (some 1.5) atr_ratio
            else vmul (some 1.0) atr_ratio
  let m1 := if (0.05 : ℚ) < current_profit then vmul m0 (some 0.8)
            else if (0.02 : ℚ) < current_profit then vmul m0 (some 0.9)
            else m0
  if (120 : ℚ) < trade_duration then vmul m1 (some 0.8) else m1

/-- `ZUUK1m1p.custom_stoploss`. The host's
`self.dp.get_analyzed_dataframe(pair, self.timeframe)` is modelled by passing
the annotated dataframe directly; `pair` and the unused `after_fill` /
`**kwargs` parameters carry no information and are dropped. Times are epoch
seconds. -/
def custom_stoploss (dataframe : List AnnRow) (trade : Trade)
    (current_time current_rate current_profit : ℚ) : Option ℚ :=
  if dataframe.length < startup_candle_count then some 1
  else
    let last_candle := dataframe.getLast?.getD default
    let trade_duration := (current_time - trade.open_date_utc) / 60
    let atr_multiplier := atrMultiplier last_candle.uptrend
      last_candle.atr_ratio current_profit trade_duration
    let atr_stoploss_price :=
      vsub (some current_rate) (vmul last_candle.atr atr_multiplier)
    let atr_stoploss_pct :=
      vdiv (vsub atr_stoploss_price (some trade.open_rate)) trade.open_rate
    let swing_stoploss_price := vmul last_candle.swing_low (some 0.99)
    let swing_stoploss_pct :=
      vdiv (vsub swing_stoploss_price (some trade.open_rate)) trade.open_rate
    pymax (pymax atr_stoploss_pct swing_stoploss_pct) (some stoploss)

/-- The atr-based stop fraction of lines 113–115, as a plain rational:
`((current_rate - atr * multiplier) - open_rate) / open_rate`. -/
def atrStopPct (trade : Trade) (current_rate atrv mult : ℚ) : ℚ :=
  (current_rate - atrv * mult - trade.open_rate) / trade.open_rate

/-- The swing-low stop fraction of lines 117–119, as a plain rational:
`(swing_low * 0.99 - open_rate) / open_rate`. -/
def swingStopPct (trade : Trade) (swing : ℚ) : ℚ :=
  (swing * 0.99 - trade.open_rate) / trade.open_rate

/-- The closed form of the multiplier, following the spec's description:
trend base times profit tier times duration factor. -/
def atrMultiplierSpec (uptrend : Bool) (ratio current_profit
    trade_duration : ℚ) : ℚ :=
  (if uptrend then (1.5 : ℚ) else 1.0) * ratio *
    (if (0.05 : ℚ) < current_profit then 0.8
     else if (0.02 : ℚ) < current_profit then 0.9 else 1) *
    (if (120 : ℚ) < trade_duration then 0.8 else 1)

/-- Concrete last candle of the spec's worked example: atr 1, atr-ratio 1.2,
uptrend, swing low 103. -/
def rowEx : AnnRow :=
  { candle := default, price_change := none, atr := some 1,
    long_atr := none, atr_ratio := some 1.2, ema_short := none,
    ema_long := none, uptrend := true, swing_low := some 103 }

/-- A 200-row annotated history ending in `rowEx`. -/
def dfEx : List AnnRow := List.replicate 200 rowEx

/-- The worked example's position: opened at rate 100, at time 0. -/
def tradeEx : Trade := { open_rate := 100, open_date_utc := 0 }

/-- A last candle whose two stop fractions both fall below the static floor:
atr 50 and swing low 40 against an open rate of 100. -/
def rowDeep : AnnRow :=
  { candle := default, price_change := none, atr := some 50,
    long_atr := none, atr_ratio := some 1, ema_short := none,
    ema_long := none, uptrend := false, swing_low := some 40 }

/-- A 200-row annotated history ending in `rowDeep`. -/
def dfDeep : List AnnRow := List.replicate 200 rowDeep

/-- The position paired with `dfDeep`. -/
def tradeDeep : Trade := { open_rate := 100, open_date_utc := 0 }

/-- A filler row, with no defined indicator values. -/
def rowOther : AnnRow :=
  { candle := default, price_change := none, atr := none,
    long_atr := none, atr_ratio := none, ema_short := none,
    ema_long := none, uptrend := false, swing_low := none }

/-- `dfEx` with one extra, different candle prepended: same last row,
different earlier history. -/
def dfExt : List AnnRow := rowOther :: List.replicate 200 rowEx

/-- An annotated row whose candle closed at a positive price (5). -/
def rowPos : AnnRow :=
  { candle := { date := 0, open_ := 5, high := 5, low := 5, close := 5,
                volume := 1 },
    price_change := none, atr := none, long_atr := none, atr_ratio := none,
    ema_short := none, ema_long := none, uptrend := false,
    swing_low := none }

/-- A two-candle series whose second close gains exactly 2%. -/
def csGain : List Candle :=
  [{ date := 0, open_ := 100, high := 100, low := 100, close := 100,
     volume := 1 },
   { date := 60, open_ := 100, high := 102, low := 100, close := 102,
     volume := 1 }]

/-- A flat series of 114 all-zero candles: every true range is 0, so the
100-row ATR average at row 113 is exactly 0. -/
def csFlat : List Candle := List.replicate 114 default

lemma vmul_some (a b : ℚ) : vmul (some a) (some b) = some (a * b) := rfl

lemma vsub_some (a b : ℚ) : vsub (some a) (some b) = some (a - b) := rfl

lemma pymax_some (a b : ℚ) : pymax (some a) (some b) = some (max a b) := by
  unfold pymax vlt
  rcases lt_or_ge a b with h | h
  · simp [h, max_eq_right h.le]
  · simp [not_lt.mpr h, max_eq_left h]

lemma atrMultiplier_some (up : Bool) (r p d : ℚ) :
    atrMultiplier up (some r) p d = some (atrMultiplierSpec up r p d) := by
  unfold atrMultiplier atrMultiplierSpec
  rcases up with _ | _ <;>
    split_ifs with h1 h2 <;> simp [vmul]

/-- The `length ≥ 200` branch of `custom_stoploss`, in closed form: when the
last row carries defined atr, atr-ratio and swing-low values and the open
rate is nonzero, the result is the three-way maximum of the two stop
fractions and the static floor. -/
lemma custom_stoploss_eq (df : List AnnRow) (t : Trade)
    (now rate profit a r s m : ℚ)
    (hlen : startup_candle_count ≤ df.length)
    (ha : (df.getLast?.getD default).atr = some a)
    (hr : (df.getLast?.getD default).atr_ratio = some r)
    (hs : (df.getLast?.getD default).swing_low = some s)
    (hm : atrMultiplier (df.getLast?.getD default).uptrend (some r) profit
      ((now - t.open_date_utc) / 60) = some m)
    (hor : t.open_rate ≠ 0) :
    custom_stoploss df t now rate profit =
      some (max (max (atrStopPct t rate a m) (swingStopPct t s)) stoploss) := by
  unfold custom_stoploss
  rw [if_neg (Nat.not_lt.mpr hlen)]
  dsimp only
  rw [hr, hm, ha, hs, vmul_some, vsub_some, vmul_some]
  rw [vsub_some, vsub_some]
  simp only [vdiv]
  rw [if_neg hor, if_neg hor, pymax_some, pymax_some]
  unfold atrStopPct swingStopPct
  norm_num

lemma dfEx_getLast : dfEx.getLast?.getD default = rowEx := by
  rw [dfEx, List.getLast?_replicate]
  norm_num

lemma dfEx_len : startup_candle_count ≤ dfEx.length := by
  unfold startup_candle_count dfEx
  rw [List.length_replicate]

lemma dfExt_len : startup_candle_count ≤ dfExt.length := by
  unfold startup_candle_count dfExt
  rw [List.length_cons, List.length_replicate]
  exact Nat.le_succ 200

lemma dfDeep_len : startup_candle_count ≤ dfDeep.length := by
  unfold startup_candle_count dfDeep
  rw [List.length_replicate]

lemma dfDeep_getLast : dfDeep.getLast?.getD default = rowDeep := by
  rw [dfDeep, List.getLast?_replicate]
  norm_num

lemma dfExt_getLast : dfExt.getLast? = dfEx.getLast? := by
  rw [dfExt, dfEx]
  rw [show List.replicate 200 rowEx = rowEx :: List.replicate 199 rowEx from
    rfl]
  rw [List.getLast?_cons_cons]

/-- C2: with fewer than `startup_candle_count` (200) annotated candles,
`custom_stoploss` returns the neutral sentinel 1, whatever the trade, time,
rate and profit. -/
theorem custom_stoploss_short_history_sentinel (df : List AnnRow) (t : Trade)
    (now rate profit : ℚ) (h : df.length < startup_candle_count) :
    custom_stoploss df t now rate profit = some 1 := by
  unfold custom_stoploss
  rw [if_pos h]

/-- Witness for C2: the empty history gets the sentinel. -/
theorem custom_stoploss_short_history_sentinel_witness :
    custom_stoploss [] tradeEx 0 0 0 = some 1 :=
  custom_stoploss_short_history_sentinel [] tradeEx 0 0 0
    (by simp [startup_candle_count])

/-- C4: inside `custom_stoploss` the multiplier factors exactly as the spec
describes — trend base (1.5 or 1.0 times the atr ratio), times one mutually
exclusive profit tier (0.8 above 5%, else 0.9 above 2%, else 1), times the
duration factor (0.8 beyond 120 minutes, else 1). -/
theorem atr_multiplier_factorization (up : Bool) (r p d : ℚ) :
    atrMultiplier up (some r) p d = some (atrMultiplierSpec up r p d) :=
  atrMultiplier_some up r p d

/-- C9: with at least 200 candles, `custom_stoploss` reads only the last
annotated row — two histories agreeing on their last row get the same
result. -/
theorem custom_stoploss_depends_only_on_last_row (df1 df2 : List AnnRow)
    (t : Trade) (now rate profit : ℚ)
    (h1 : startup_candle_count ≤ df1.length)
    (h2 : startup_candle_count ≤ df2.length)
    (hlast : df1.getLast? = df2.getLast?) :
    custom_stoploss df1 t now rate profit =
      custom_stoploss df2 t now rate profit := by
  unfold custom_stoploss
  rw [if_neg (Nat.not_lt.mpr h1), if_neg (Nat.not_lt.mpr h2), hlast]

/-- Witness for C9: a 200-row history and a 201-row history with a different
first row but the same last row yield the same stop-loss. -/
theorem custom_stoploss_depends_only_on_last_row_witness :
    custom_stoploss dfEx tradeEx 600 105 0.03 =
      custom_stoploss dfExt tradeEx 600 105 0.03 :=
  custom_stoploss_depends_only_on_last_row dfEx dfExt tradeEx 600 105 0.03
    dfEx_len dfExt_len dfExt_getLast.symm

/-- C10: with at least 200 candles, a last row carrying defined (finite)
atr, atr-ratio and swing-low values, and a nonzero open rate, the whole
computation is total: `custom_stoploss` returns a defined rational. -/
theorem custom_stoploss_total_on_finite_last_row (df : List AnnRow)
    (t : Trade) (now rate profit a r s : ℚ)
    (hlen : startup_candle_count ≤ df.length)
    (ha : (df.getLast?.getD default).atr = some a)
    (hr : (df.getLast?.getD default).atr_ratio = some r)
    (hs : (df.getLast?.getD default).swing_low = some s)
    (hor : t.open_rate ≠ 0) :
    ∃ q : ℚ, custom_stoploss df t now rate profit = some q :=
  ⟨_, custom_stoploss_eq df t now rate profit a r s _ hlen ha hr hs
    (atrMultiplier_some _ r profit _) hor⟩

/-- Witness for C10: the worked example's inputs produce a defined value. -/
theorem custom_stoploss_total_on_finite_last_row_witness :
    ∃ q : ℚ, custom_stoploss dfEx tradeEx 600 105 0.03 = some q :=
  custom_stoploss_total_on_finite_last_row dfEx tradeEx 600 105 0.03 1 1.2 103
    dfEx_len
    (by rw [dfEx_getLast]; rfl)
    (by rw [dfEx_getLast]; rfl)
    (by rw [dfEx_getLast]; rfl)
    (by norm_num [tradeEx])

/-- C5: the spec's worked example. With last-candle atr 1, atr-ratio 1.2,
uptrend, swing low 103, open rate 100, current rate 105, profit 3% and a
10-minute-old trade, the multiplier is 1.5 * 1.2 * 0.9 = 1.62 and
`custom_stoploss` returns exactly 0.0338 (the atr fraction beats the
swing fraction 0.0197 and the floor -0.15). -/
theorem custom_stoploss_worked_example :
    atrMultiplier true (some 1.2) 0.03 10 = some 1.62 ∧
    custom_stoploss dfEx tradeEx 600 105 0.03 = some 0.0338 := by
  constructor
  · rw [atrMultiplier_some]
    norm_num [atrMultiplierSpec]
  · have hm : atrMultiplier (dfEx.getLast?.getD default).uptrend (some 1.2)
        0.03 ((600 - tradeEx.open_date_utc) / 60) = some 1.62 := by
      rw [dfEx_getLast, atrMultiplier_some]
      norm_num [atrMultiplierSpec, rowEx, tradeEx]
    rw [custom_stoploss_eq dfEx tradeEx 600 105 0.03 1 1.2 103 1.62
      dfEx_len (by rw [dfEx_getLast]; rfl) (by rw [dfEx_getLast]; rfl)
      (by rw [dfEx_getLast]; rfl) hm (by norm_num [tradeEx])]
    norm_num [atrStopPct, swingStopPct, stoploss, tradeEx, max_def]

/-- Counterexample to C3 as stated: when both stop fractions fall below the
static floor (atr fraction -0.5, swing fraction -0.604), the returned value
is the floor -0.15, which is NOT less than or equal to the greater of the
two fractions. -/
theorem custom_stoploss_le_pairmax_refuted :
    custom_stoploss dfDeep tradeDeep 0 100 0 = some (-0.15) ∧
    ¬ ((-0.15 : ℚ) ≤
        max (atrStopPct tradeDeep 100 50 1) (swingStopPct tradeDeep 40)) := by
  constructor
  · have hm : atrMultiplier (dfDeep.getLast?.getD default).uptrend (some 1)
        0 ((0 - tradeDeep.open_date_utc) / 60) = some 1 := by
      rw [dfDeep_getLast, atrMultiplier_some]
      norm_num [atrMultiplierSpec, rowDeep, tradeDeep]
    rw [custom_stoploss_eq dfDeep tradeDeep 0 100 0 50 1 40 1
      dfDeep_len (by rw [dfDeep_getLast]; rfl) (by rw [dfDeep_getLast]; rfl)
      (by rw [dfDeep_getLast]; rfl) hm (by norm_num [tradeDeep])]
    norm_num [atrStopPct, swingStopPct, stoploss, tradeDeep, max_def]
  · norm_num [atrStopPct, swingStopPct, tradeDeep, max_def]

/-- C3 as amended: with at least 200 candles (finite last-row values,
nonzero open rate), the result is never more negative than -0.15, and it is
bounded by the greater of the atr-based and swing-based fractions whenever
that greater fraction itself is at least -0.15 (when both fractions are
below the floor the result is the floor, above both). -/
theorem custom_stoploss_floor_and_conditional_cap (df : List AnnRow)
    (t : Trade) (now rate profit a r s m : ℚ)
    (hlen : startup_candle_count ≤ df.length)
    (ha : (df.getLast?.getD default).atr = some a)
    (hr : (df.getLast?.getD default).atr_ratio = some r)
    (hs : (df.getLast?.getD default).swing_low = some s)
    (hm : atrMultiplier (df.getLast?.getD default).uptrend (some r) profit
      ((now - t.open_date_utc) / 60) = some m)
    (hor : t.open_rate ≠ 0) :
    ∃ q : ℚ, custom_stoploss df t now rate profit = some q ∧
      (-0.15 : ℚ) ≤ q ∧
      ((-0.15 : ℚ) ≤ max (atrStopPct t rate a m) (swingStopPct t s) →
        q ≤ max (atrStopPct t rate a m) (swingStopPct t s)) := by
  have hfloor : stoploss = (-0.15 : ℚ) := rfl
  refine ⟨max (max (atrStopPct t rate a m) (swingStopPct t s)) stoploss,
    custom_stoploss_eq df t now rate profit a r s m hlen ha hr hs hm hor,
    ?_, ?_⟩
  · rw [← hfloor]
    exact le_max_right _ _
  · intro hge
    rw [← hfloor] at hge
    exact max_le le_rfl hge

/-- Witness for C3 (amended): the worked example's inputs, where the greater
fraction (0.0338) is above the floor. -/
theorem custom_stoploss_floor_and_conditional_cap_witness :
    ∃ q : ℚ, custom_stoploss dfEx tradeEx 600 105 0.03 = some q ∧
      (-0.15 : ℚ) ≤ q ∧
      ((-0.15 : ℚ) ≤
          max (atrStopPct tradeEx 105 1 1.62) (swingStopPct tradeEx 103) →
        q ≤ max (atrStopPct tradeEx 105 1 1.62) (swingStopPct tradeEx 103)) :=
  custom_stoploss_floor_and_conditional_cap dfEx tradeEx 600 105 0.03 1 1.2
    103 1.62 dfEx_len (by rw [dfEx_getLast]; rfl) (by rw [dfEx_getLast]; rfl)
    (by rw [dfEx_getLast]; rfl)
    (by rw [dfEx_getLast, atrMultiplier_some]
        norm_num [atrMultiplierSpec, rowEx, tradeEx])
    (by norm_num [tradeEx])

/-- Counterexample to C1 as stated: a candle closing at 5 (> 0) gets its
`sell` column set to 0 by `populate_sell_trend`, so the exit signal is
false, not true. -/
theorem populate_sell_trend_always_true_refuted :
    0 < rowPos.candle.close ∧
    signalActive ((populate_sell_trend [rowPos]).getD 0 default).2 = false := by
  constructor
  · norm_num [rowPos]
  · norm_num [populate_sell_trend, rowPos, signalActive]

/-- C1 as amended: `populate_sell_trend` writes 0 — not a firing signal —
into the `sell` column of every candle whose close is positive, so the exit
signal is false for every candle of every series, deferring all exits to the
host's ROI/stop-loss/trailing-stop mechanisms. -/
theorem populate_sell_trend_inactive (df : List AnnRow)
    (p : AnnRow × Option ℕ) (hp : p ∈ populate_sell_trend df) :
    signalActive p.2 = false ∧
    (0 < p.1.candle.close → p.2 = some 0) := by
  rcases List.mem_map.mp hp with ⟨row, _, rfl⟩
  constructor
  · by_cases h : 0 < row.candle.close <;> simp [signalActive, h]
  · intro h
    simp [h]

/-- Witness for C1 (amended): the row built from `rowPos`. -/
theorem populate_sell_trend_inactive_witness :
    signalActive ((rowPos, some 0) : AnnRow × Option ℕ).2 = false ∧
    (0 < ((rowPos, some 0) : AnnRow × Option ℕ).1.candle.close →
      ((rowPos, some 0) : AnnRow × Option ℕ).2 = some 0) :=
  populate_sell_trend_inactive [rowPos] (rowPos, some 0)
    (by norm_num [populate_sell_trend, rowPos])

/-- C6: through the full pipeline, the entry signal at row `i` fires exactly
when the close-to-close change `(close[i] - close[i-1]) / close[i-1]` is at
least 1%; it is false in every other case, including row 0, where the change
is undefined. -/
theorem buy_signal_iff_one_percent_gain (cs : List Candle) (i : ℕ)
    (h : i < cs.length) :
    signalActive
        ((populate_buy_trend (populate_indicators cs)).getD i default).2 =
        true ↔
      0 < i ∧ (0.01 : ℚ) ≤
        (closeAt cs i - closeAt cs (i - 1)) / closeAt cs (i - 1) := by
  have h1 : i < (populate_indicators cs).length := by
    simpa [populate_indicators] using h
  have h2 : i < (populate_buy_trend (populate_indicators cs)).length := by
    simpa [populate_buy_trend] using h1
  rw [List.getD_eq_getElem?_getD, List.getElem?_eq_getElem h2,
    Option.getD_some]
  simp only [populate_buy_trend, List.getElem_map]
  simp only [populate_indicators, List.getElem_map, List.getElem_range]
  simp only [price_change]
  by_cases hi : i = 0
  · subst hi
    simp [signalActive]
  · rw [if_neg hi]
    dsimp only
    split_ifs with hp
    · simp [signalActive, Nat.pos_of_ne_zero hi, hp]
    · simp [signalActive, hp]

/-- Witness for C6: in `csGain` the second candle gains 2%, so the entry
signal fires at row 1. -/
theorem buy_signal_iff_one_percent_gain_witness :
    signalActive
        ((populate_buy_trend (populate_indicators csGain)).getD 1 default).2 =
      true :=
  (buy_signal_iff_one_percent_gain csGain 1 (by simp [csGain])).mpr
    (by constructor
        · exact Nat.one_pos
        · norm_num [closeAt, csGain])

/-- C8: `populate_indicators` returns one annotated row per input candle, in
order, and every row embeds its original candle unchanged — only derived
columns are added. -/
theorem populate_indicators_preserves_candles (cs : List Candle) :
    (populate_indicators cs).length = cs.length ∧
    (populate_indicators cs).map (fun row => row.candle) = cs := by
  constructor
  · simp [populate_indicators]
  · apply List.ext_getElem
    · simp [populate_indicators]
    · intro i h1 h2
      simp only [populate_indicators, List.map_map, List.getElem_map,
        List.getElem_range, Function.comp]
      rw [List.getD_eq_getElem?_getD, List.getElem?_eq_getElem h2,
        Option.getD_some]

lemma default_candle :
    (default : Candle) =
      { date := 0, open_ := 0, high := 0, low := 0, close := 0,
        volume := 0 } := rfl

lemma csFlat_getD (i : ℕ) : csFlat.getD i default = default := by
  rw [csFlat, List.getD_eq_getElem?_getD, List.getElem?_replicate]
  split_ifs <;> rfl

lemma trueRange_csFlat (i : ℕ) : trueRange csFlat i = 0 := by
  unfold trueRange highAt lowAt closeAt
  rw [csFlat_getD, csFlat_getD, default_candle]
  norm_num

lemma atrVal_csFlat (i : ℕ) : atrVal csFlat i = 0 := by
  simp [atrVal, trueRange_csFlat]

lemma long_atr_csFlat : long_atr csFlat 113 = some 0 := by
  rw [long_atr, if_pos (by norm_num)]
  simp [long_atrVal, atrVal_csFlat]

/-- C7: computing the `atr_ratio` column is total — `populate_indicators`
always produces a full annotated series — and at any row where `long_atr` is
zero the division yields the silent undefined value (`none`, pandas'
nonfinite result), not an error. -/
theorem atr_ratio_zero_division_undefined (cs : List Candle) :
    (populate_indicators cs).length = cs.length ∧
    ∀ i, i < cs.length → long_atr cs i = some 0 →
      ((populate_indicators cs).getD i default).atr_ratio = none := by
  constructor
  · simp [populate_indicators]
  · intro i hi hl
    have h1 : i < (populate_indicators cs).length := by
      simpa [populate_indicators] using hi
    rw [List.getD_eq_getElem?_getD, List.getElem?_eq_getElem h1,
      Option.getD_some]
    simp only [populate_indicators, List.getElem_map, List.getElem_range]
    rcases hatr : atr cs i with _ | a
    · simp [atr_ratio, hatr]
    · simp [atr_ratio, hatr, hl]

/-- Witness for C7: in the flat series the 100-row ATR average at row 113 is
exactly zero, and the ratio column there is the undefined value. -/
theorem atr_ratio_zero_division_undefined_witness :
    ((populate_indicators csFlat).getD 113 default).atr_ratio = none :=
  (atr_ratio_zero_division_undefined csFlat).2 113
    (by rw [csFlat, List.length_replicate]; norm_num) long_atr_csFlat
